import Mathlib

/-!
Verification of the wkflws workflow orchestrator against its specification.

The definitions below are a shallow embedding of the Python sources:
`wkflws/utils/jsonpath.py`, `wkflws/workflow.py` and the intrinsic-function
subsystem under `wkflws/intrinsic_funcs/`.  JSON values are modelled by the
inductive `Json`; Python `decimal.Decimal` values are modelled by `Rat`
(decimals are a subset of the rationals and every operation the code uses —
comparison, addition, multiplication, division — agrees with the rational
one); Python exceptions are modelled by `Except` with an error enumeration
`WkErr` distinguishing the exception classes the code can raise.

The repository calls into the external library `jsonpath_ng` (its
`parser.parse`, the selector `find`, and `update_or_create`).  That library
is not part of the repository, so it is modelled here from its documented
semantics, restricted to the JSONPath fragment the repository exercises
(root, dot-field selectors, bracket index and bracket two-part slice);
every other expression is a parse error, as the base `jsonpath_ng` grammar
has no arithmetic operators.  The repository's own unit tests
(`tests/utils/test_jsonpath.py`) pin this model down on concrete data.
-/

namespace Wkflws

/-- A JSON value as Python deserializes it: `None`, `bool`, numbers, `str`,
`list` and `dict` (modelled as an association list preserving insertion
order, as Python dicts do). Python `int`, `float` and `decimal.Decimal`
are conflated into `Rat`; where the source distinguishes them with
`isinstance` this embedding notes the conflation at the definition. -/
inductive Json where
  | null
  | bool (b : Bool)
  | num (q : Rat)
  | str (s : String)
  | arr (elems : List Json)
  | obj (fields : List (String × Json))
deriving Repr

/-- Python `dict` lookup `d[k]` / `k in d`: the first binding of the key. -/
def lookupField (kvs : List (String × Json)) (k : String) : Option Json :=
  match kvs with
  | [] => none
  | (k', v) :: rest => if k' = k then some v else lookupField rest k

/-- Python `k in d` on a dict. -/
def hasField (kvs : List (String × Json)) (k : String) : Bool :=
  (lookupField kvs k).isSome

/-- Python `d[k] = v`: replace the existing binding in place, else append
(dicts preserve insertion order). -/
def setField (kvs : List (String × Json)) (k : String) (v : Json) :
    List (String × Json) :=
  match kvs with
  | [] => [(k, v)]
  | (k', v') :: rest =>
      if k' = k then (k', v) :: rest else (k', v') :: setField rest k v

/-- Python truthiness `bool(x)` of a deserialized JSON value: `None`, `False`,
zero, the empty string, the empty list and the empty dict are falsy. -/
def pyTruthy : Json → Bool
  | .null => false
  | .bool b => b
  | .num q => q ≠ 0
  | .str s => s ≠ ""
  | .arr xs => !xs.isEmpty
  | .obj kvs => !kvs.isEmpty

/-- Whether the value is a Python container in the sense of the
`isinstance(result[0].value, (dict, list))` test of `get_jsonpath_value`. -/
def Json.isContainer : Json → Bool
  | .arr _ => true
  | .obj _ => true
  | _ => false

/-- Whether the value is a Python `list`. -/
def Json.isArr : Json → Bool
  | .arr _ => true
  | _ => false

/-- Python `s.startswith(pre)`. -/
def pyStartsWith (s pre : String) : Bool := pre.toList.isPrefixOf s.toList

/-- Python `s.endswith(suf)`. -/
def pyEndsWith (s suf : String) : Bool := suf.toList.isSuffixOf s.toList

/-- Python `s[n:]` (used to strip the first `$` of a `$$…` path). -/
def dropStr (s : String) (n : Nat) : String := String.mk (s.toList.drop n)

/-! ### The modelled fragment of jsonpath_ng

`wkflws/utils/jsonpath.py` builds on `jsonpath_ng.parser.parse` and the
classes `Root`, `Child`, `Fields`, `Index`, `Slice`.  `JSel` and `JPath`
mirror that class structure: a parsed path is `Root` or a left-nested
`Child(left, selector)`. -/

/-- One selector of a jsonpath_ng path: a dot-field (`Fields`), a bracket
index (`Index`, Python semantics so negative indexes count from the end),
or a bracket slice (`Slice`, two-part `[start:stop]`). -/
inductive JSel where
  | field (name : String)
  | idx (i : Int)
  | slice (start stop : Option Int)
deriving Repr

/-- A jsonpath_ng path: `Root` (`$`) or `Child(left, selector)`. -/
inductive JPath where
  | root
  | child (left : JPath) (sel : JSel)
deriving Repr

/-- Python list indexing `xs[i]` with negative indexes counting from the
end; out of range yields no element (jsonpath_ng's `Index.find` guards the
positive case; the out-of-range negative case, where Python itself would
raise `IndexError`, is never exercised by the repository). -/
def pyIndex (xs : List Json) (i : Int) : Option Json :=
  if i < 0 then
    if (-i).toNat ≤ xs.length then xs.get? (xs.length - (-i).toNat) else none
  else
    xs.get? i.toNat

/-- Clamp one bound of a Python slice `xs[start:stop]` to `0..n`. -/
def sliceBound (n : Nat) (dflt : Nat) : Option Int → Nat
  | none => dflt
  | some i => if i < 0 then n - min (-i).toNat n else min i.toNat n

/-- jsonpath_ng `Slice.find` on an array: the elements selected by
`xs[start:stop]` under Python slice semantics. -/
def sliceElems (xs : List Json) (start stop : Option Int) : List Json :=
  let n := xs.length
  let s := sliceBound n 0 start
  let e := sliceBound n n stop
  ((xs.drop s).take (e - s))

/-- jsonpath_ng `find` of a single selector against one value: a field
selector yields the dict entry when present, an index selector the list
element when in range, a slice selector the selected elements; every
selector yields nothing on a value of the wrong shape. -/
def JSel.findIn : JSel → Json → List Json
  | .field f, .obj kvs => (lookupField kvs f).toList
  | .field _, _ => []
  | .idx i, .arr xs => (pyIndex xs i).toList
  | .idx _, _ => []
  | .slice s e, .arr xs => sliceElems xs s e
  | .slice _ _, _ => []

/-- jsonpath_ng `JSONPath.find`: `Root` yields the data itself, `Child`
maps the selector over what the left path found. -/
def JPath.find : JPath → Json → List Json
  | .root, d => [d]
  | .child l s, d => (l.find d).flatMap s.findIn

/-- The selectors of a path from the root outward. -/
def JPath.sels : JPath → List JSel
  | .root => []
  | .child l s => l.sels ++ [s]

/-- The last (outermost) selector — what `parser.right` is in
`get_jsonpath_value`'s slice-detection loop; `none` for the bare root. -/
def JPath.lastSel : JPath → Option JSel
  | .root => none
  | .child _ s => some s

/-- Whether `parser.right` is a jsonpath_ng `Slice`. -/
def isSliceSel : Option JSel → Bool
  | some (.slice _ _) => true
  | _ => false

/-- ASCII digit. -/
def isDigitCh (c : Char) : Bool := 48 ≤ c.toNat && c.toNat ≤ 57

/-- First character of a jsonpath_ng identifier (its lexer's `ID` token
starts with a letter, `_` or `@`). -/
def isIdFirstCh (c : Char) : Bool :=
  (65 ≤ c.toNat && c.toNat ≤ 90) || (97 ≤ c.toNat && c.toNat ≤ 122) ||
    c = '_' || c = '@'

/-- Later character of a jsonpath_ng identifier. -/
def isIdRestCh (c : Char) : Bool := isIdFirstCh c || isDigitCh c

/-- Longest identifier run at the head of the characters, and the rest. -/
def takeName : List Char → List Char × List Char
  | [] => ([], [])
  | c :: cs =>
      if isIdRestCh c then
        let (n, r) := takeName cs
        (c :: n, r)
      else ([], c :: cs)

/-- Longest digit run at the head of the characters, and the rest. -/
def takeDigits : List Char → List Char × List Char
  | [] => ([], [])
  | c :: cs =>
      if isDigitCh c then
        let (n, r) := takeDigits cs
        (c :: n, r)
      else ([], c :: cs)

/-- Natural number denoted by a run of ASCII digits. -/
def digitsToNat (ds : List Char) : Nat :=
  ds.foldl (fun a c => a * 10 + (c.toNat - 48)) 0

/-- An optionally signed integer at the head of the characters. -/
def takeInt : List Char → Option (Int × List Char)
  | '-' :: cs =>
      match takeDigits cs with
      | ([], _) => none
      | (ds, r) => some (-(digitsToNat ds : Int), r)
  | cs =>
      match takeDigits cs with
      | ([], _) => none
      | (ds, r) => some ((digitsToNat ds : Int), r)

/-- The contents of one bracket selector, after the `[`: an index `[i]`, or
a two-part slice `[start:stop]` with optional bounds.  Anything else
(wildcards, filters, three-part slices, quoted fields) is outside the
modelled fragment and is a parse error. -/
def parseBracket (cs : List Char) : Option (JSel × List Char) :=
  match takeInt cs with
  | some (i, r) =>
      match r with
      | ']' :: r' => some (.idx i, r')
      | ':' :: r2 =>
          (match takeInt r2 with
           | some (j, r3) =>
               match r3 with
               | ']' :: r4 => some (.slice (some i) (some j), r4)
               | _ => none
           | none =>
               match r2 with
               | ']' :: r4 => some (.slice (some i) none, r4)
               | _ => none)
      | _ => none
  | none =>
      match cs with
      | ':' :: r2 =>
          (match takeInt r2 with
           | some (j, r3) =>
               match r3 with
               | ']' :: r4 => some (.slice none (some j), r4)
               | _ => none
           | none =>
               match r2 with
               | ']' :: r4 => some (.slice none none, r4)
               | _ => none)
      | _ => none

/-- Modelled from the spec: the selector list of `jsonpath_ng.parser.parse`
after the root, over the modelled fragment — a sequence of `.name` and
`[...]` selectors with no intervening characters (the real lexer also
skips blanks between tokens; no expression of the repository or of the
claims relies on that).  Any other character — in particular the
arithmetic of `"$.price * 0.1"`, which the base jsonpath_ng grammar does
not know — is a parse error (`JsonPathParserError`), modelled as `none`.
The `fuel` argument only serves termination; every segment consumes at
least one character, so `length + 1` is always enough. -/
def parseSegs : Nat → List Char → Option (List JSel)
  | 0, _ => none
  | _ + 1, [] => some []
  | fuel + 1, '.' :: cs =>
      (match cs with
       | c :: _ =>
           if isIdFirstCh c then
             match takeName cs with
             | (n, r) => (parseSegs fuel r).map (JSel.field (String.mk n) :: ·)
           else none
       | [] => none)
  | fuel + 1, '[' :: cs =>
      (match parseBracket cs with
       | some (sel, r) => (parseSegs fuel r).map (sel :: ·)
       | none => none)
  | _ + 1, _ :: _ => none

/-- Modelled from the spec: `jsonpath_ng.parser.parse` on the modelled
fragment.  The expression must begin with the root `$`; the selectors
follow.  (The real grammar also accepts rootless field chains, `..`, `*`,
filters and unions, none of which the claims exercise.) -/
def parseJsonPath (s : String) : Option JPath :=
  match s.toList with
  | '$' :: rest =>
      (parseSegs (rest.length + 1) rest).map (·.foldl JPath.child JPath.root)
  | _ => none

/-- The Python exception classes the embedded code can raise, each raise
site mapped to the class the source raises there.  `executionError`,
`noChoiceMatched`, `choiceEndError` and `resultPath*` raises are all
`WkflwExecutionException` in the source; they are kept apart here so a
theorem can name the exact raise site.  `invalidOperation` is
`decimal.InvalidOperation`, which is *not* a `WkflwExecutionException`. -/
inductive WkErr where
  | jsonPathParseError
  | executionError
  | noChoiceMatched
  | choiceEndError
  | keyError
  | typeError
  | attributeError
  | indexError
  | invalidOperation
  | runtimeError
  | scanError
  | parseError
  | unknownComparator
  | valueError
  | zeroDivision
  | notModelled
  | fuelExhausted
deriving Repr, DecidableEq

/-- Embedding of `get_jsonpath_value` (`wkflws/utils/jsonpath.py`).  The
source parses the expression, runs `find`, and post-processes: more than
one result → the list of results; exactly one result that is a dict or a
list → that value; exactly one scalar whose path ends in a slice selector
(`parser.right` is a `Slice`) → the one-element list; exactly one scalar
otherwise → the scalar; no result → the empty list (the source comments
that the library gives no way to tell an invalid path from an empty
slice, and the dead `ValueError` handlers of its callers never fire). -/
def get_jsonpath_value (data : Json) (jsonpath_expr : String) :
    Except WkErr Json :=
  match parseJsonPath jsonpath_expr with
  | none => .error .jsonPathParseError
  | some p =>
      let result := p.find data
      if 1 < result.length then .ok (.arr result)
      else
        match result with
        | [v] =>
            if v.isContainer then .ok v
            else if isSliceSel p.lastSel then .ok (.arr [v])
            else .ok v
        | _ => .ok (.arr [])

/-- Modelled from the spec: jsonpath_ng `update_or_create` along the
selector list, returning the value the mutated `data` argument holds after
the call.  The bare root mutates nothing (`Root.update` returns the new
value without touching `data`, and `set_jsonpath_value` discards that
return).  A field selector writes into a dict, creating an empty dict for
a missing intermediate; writing through a selector against a value of the
wrong shape — and writing through index or slice selectors, which the
repository never does (its reference paths are field chains) — leaves the
data unchanged. -/
def updateOrCreate : List JSel → Json → Json → Json
  | [], d, _ => d
  | [.field f], .obj kvs, v => .obj (setField kvs f v)
  | .field f :: rest, .obj kvs, v =>
      let sub := (lookupField kvs f).getD (.obj [])
      .obj (setField kvs f (updateOrCreate rest sub v))
  | _ :: _, d, _ => d

/-- Modelled from the spec: jsonpath_ng `update` (no creation): writes only
along existing fields, with the same conventions as `updateOrCreate`. -/
def updateExisting : List JSel → Json → Json → Json
  | [], d, _ => d
  | [.field f], .obj kvs, v =>
      if hasField kvs f then .obj (setField kvs f v) else .obj kvs
  | .field f :: rest, .obj kvs, v =>
      (match lookupField kvs f with
       | some sub => .obj (setField kvs f (updateExisting rest sub v))
       | none => .obj kvs)
  | _ :: _, d, _ => d

/-- Embedding of `set_jsonpath_value` (`wkflws/utils/jsonpath.py`), with
Python's in-place mutation made explicit: the result pair is `(returned
value, value of the caller's data object after the call)`.  The source
deep-copies `data` when `use_copy` is true, but then selects the object to
mutate with `data_copy if data_copy else data` — Python truthiness, so an
empty dict copy is discarded and the *original* is mutated — and returns
through the same truthiness test. -/
def set_jsonpath_value (data new_data : Json) (jsonpath_expr : String)
    (create_if_missing use_copy : Bool) : Except WkErr (Json × Json) :=
  match parseJsonPath jsonpath_expr with
  | none => .error .jsonPathParseError
  | some p =>
      let mut_ := fun (d : Json) =>
        if create_if_missing then updateOrCreate p.sels d new_data
        else updateExisting p.sels d new_data
      if use_copy then
        if pyTruthy data then
          let c := mut_ data
          .ok (if pyTruthy c then c else data, data)
        else
          let d := mut_ data
          .ok (d, d)
      else
        let d := mut_ data
        .ok (d, d)

/-! ### Decimal model and the Choice predicate
(`WorkflowExecution.evaluate_choice_branch` and `state_process_choice`,
`wkflws/workflow.py`). -/

/-- Characters Python's `str.strip`/`Decimal` treat as whitespace. -/
def isSpaceCh (c : Char) : Bool :=
  c = ' ' || c = '\t' || c = '\n' || c = '\r' || c = '\x0b' || c = '\x0c'

/-- `10 ^ e` over the rationals for a signed exponent. -/
def tenPow (e : Int) : Rat :=
  if 0 ≤ e then (10 : Rat) ^ e.toNat else 1 / (10 : Rat) ^ (-e).toNat

/-- Models the `decimal.Decimal` string constructor on its numeric forms:
surrounding whitespace, an optional sign, digits with an optional decimal
point, an optional exponent.  A string outside this grammar raises
`InvalidOperation`, modelled as `none`.  (`NaN` and `Infinity`, which the
constructor also accepts, have no rational counterpart and never arise in
the repository's workflows; they are treated as unparsed.) -/
def parseDecimal (s : String) : Option Rat :=
  let cs0 := s.toList.dropWhile isSpaceCh
  let cs := (cs0.reverse.dropWhile isSpaceCh).reverse
  let (neg, cs1) :=
    match cs with
    | '-' :: r => (true, r)
    | '+' :: r => (false, r)
    | r => (false, r)
  let (ip, cs2) := takeDigits cs1
  let (fp, cs3) :=
    match cs2 with
    | '.' :: r => takeDigits r
    | r => ([], r)
  if ip.isEmpty && fp.isEmpty then none
  else
    let mag : Rat :=
      (digitsToNat ip : Rat) + (digitsToNat fp : Rat) / (10 : Rat) ^ fp.length
    match cs3 with
    | [] => some (if neg then -mag else mag)
    | e :: r =>
        if e = 'e' || e = 'E' then
          match takeInt r with
          | some (ex, []) =>
              some ((if neg then -mag else mag) * tenPow ex)
          | _ => none
        else none

/-- Models `Decimal(str(value))` on a deserialized JSON value, as the
numeric comparators of `evaluate_choice_branch` apply it: a number passes
through (`str` then re-parse round-trips), a string is parsed, and every
other value fails — `str()` of `None`, a `bool`, a list or a dict yields
`"None"`, `"True"`/`"False"`, `"[...]"` or `"{...}"`, none of which the
`Decimal` constructor accepts, so it raises `InvalidOperation`. -/
def toDecimalViaStr : Json → Option Rat
  | .num q => some q
  | .str s => parseDecimal s
  | _ => none

/-- Models `Decimal(x)` on a deserialized JSON comparison operand:
numbers pass through (`int` and `float` are both accepted; conflated into
`Rat` here), a `bool` is an `int` subclass in Python so `Decimal(True)` is
`1`, a string is parsed (`InvalidOperation` when it does not parse);
`None`, lists and dicts raise `TypeError`. -/
def decimalCtor : Json → Except WkErr Rat
  | .num q => .ok q
  | .bool b => .ok (if b then 1 else 0)
  | .str s =>
      (match parseDecimal s with
       | some q => .ok q
       | none => .error .invalidOperation)
  | _ => .error .typeError

/-- Python `str()` of a deserialized JSON value.  `None`, booleans,
strings and integral numbers render exactly; the renderings of
non-integral numbers and containers are approximations (no theorem below
depends on them — they only feed `StringEquals`, which no claim
exercises, and the `ResultPath` coercion, which the workflows only apply
to strings). -/
def pyStr : Json → String
  | .null => "None"
  | .bool b => if b then "True" else "False"
  | .num q => if q.den = 1 then toString q.num else toString q
  | .str s => s
  | .arr _ => "[...]"
  | .obj _ => "\x7b...\x7d"

/-- One numeric comparator arm: `Decimal(str(value)) ⟨cmp⟩
Decimal(operand)`, with Python's left-to-right evaluation (the left
conversion raises before the operand is converted). -/
def numCompare (value operand : Json) (cmp : Rat → Rat → Bool) :
    Except WkErr Bool :=
  match toDecimalViaStr value with
  | none => .error .invalidOperation
  | some a => (decimalCtor operand).map (fun b => cmp a b)

/-- Embedding of `WorkflowExecution.evaluate_choice_branch`
(`wkflws/workflow.py` lines 330-424).  Faithfully carried over from the
source:

* the `try`/`except ValueError` around the JSONPath lookup is dead code —
  `get_jsonpath_value` reports a missing path by returning the empty list
  and raises `JsonPathParserError` (not `ValueError`) on a malformed
  expression — so `_is_value_present` is still `True` when the comparator
  chain is reached and `IsPresent` answers `True` even for a path that
  resolved to nothing;
* a missing `"Variable"` key raises `KeyError` (the handler catches only
  `ValueError`);
* the `NumericGreaterThan` arm compares with `>=` (the same expression as
  the `NumericGreaterThanEquals` arm);
* the `NumericLessThanEquals` arm compares with `<` and reads
  `branch["NumericLessThan"]`, which cannot be present in that arm, so it
  raises `KeyError`;
* an unknown comparator raises a bare `Exception`.

The `fuel` argument only serves termination of the `And`/`Not` recursion;
nesting depth of a branch bounds the fuel needed.  The `for` loop of the
`And` arm (all children must be true, stopping at the first false or
raising child) is embedded through the `.inr` list variant so the
definition is structurally recursive on its fuel and reduces
definitionally. -/
def choiceBranchRun : Nat → Sum Json (List Json) → Json → Except WkErr Bool
  | 0, _, _ => .error .fuelExhausted
  | _ + 1, .inr [], _ => .ok true
  | fuel + 1, .inr (b :: bs), state_input => do
      let and_result ← choiceBranchRun fuel (.inl b) state_input
      if !and_result then .ok false
      else choiceBranchRun fuel (.inr bs) state_input
  | fuel + 1, .inl branch, state_input =>
      match branch with
      | .obj kvs =>
          if hasField kvs "And" then
            match lookupField kvs "And" with
            | some (.arr bs) => choiceBranchRun fuel (.inr bs) state_input
            | _ => .error .typeError
          else if hasField kvs "Not" then
            match lookupField kvs "Not" with
            | some b => (choiceBranchRun fuel (.inl b) state_input).map (!·)
            | none => .error .keyError
          else
            match lookupField kvs "Variable" with
            | none => .error .keyError
            | some (.str ve) =>
                let expr := if pyStartsWith ve "$$" then dropStr ve 1 else ve
                (match get_jsonpath_value state_input expr with
                 | .error e => .error e
                 | .ok value =>
                     if hasField kvs "IsPresent" then .ok true
                     else if hasField kvs "NumericGreaterThan" then
                       numCompare value
                         ((lookupField kvs "NumericGreaterThan").getD .null)
                         (fun a b => decide (b ≤ a))
                     else if hasField kvs "NumericGreaterThanEquals" then
                       numCompare value
                         ((lookupField kvs "NumericGreaterThanEquals").getD .null)
                         (fun a b => decide (b ≤ a))
                     else if hasField kvs "NumericLessThan" then
                       numCompare value
                         ((lookupField kvs "NumericLessThan").getD .null)
                         (fun a b => decide (a < b))
                     else if hasField kvs "NumericLessThanEquals" then
                       (match lookupField kvs "NumericLessThan" with
                        | some op => numCompare value op (fun a b => decide (a < b))
                        | none => .error .keyError)
                     else if hasField kvs "NumericEquals" then
                       numCompare value
                         ((lookupField kvs "NumericEquals").getD .null)
                         (fun a b => decide (a = b))
                     else if hasField kvs "StringEquals" then
                       (match lookupField kvs "StringEquals" with
                        | some (.str t) => .ok (pyStr value = t)
                        | some _ => .ok false
                        | none => .error .keyError)
                     else if hasField kvs "IsNull" then
                       .ok (match value with | .null => true | _ => false)
                     else if hasField kvs "IsNumeric" then
                       .ok (match value with
                            | .num _ => true
                            | .bool _ => true
                            | _ => false)
                     else if hasField kvs "IsString" then
                       .ok (match value with | .str _ => true | _ => false)
                     else if hasField kvs "IsBoolean" then
                       .ok (match value with | .bool _ => true | _ => false)
                     else .error .unknownComparator)
            | some _ => .error .attributeError
      | _ => .error .typeError

/-- `WorkflowExecution.evaluate_choice_branch` (the `.inl` entry of
`choiceBranchRun`). -/
def evaluate_choice_branch (fuel : Nat) (branch state_input : Json) :
    Except WkErr Bool :=
  choiceBranchRun fuel (.inl branch) state_input

/-- Python `"End" in choice` for a choice rule (a dict in every workflow;
a non-dict rule is handled by `evaluate_choice_branch`'s type error). -/
def choiceHasEnd : Json → Bool
  | .obj kvs => hasField kvs "End"
  | _ => false

/-- The rule loop of `state_process_choice`: a rule containing `"End"`
raises (`Choice rule cannot be an End`); the first rule whose predicate
is true yields its `"Next"` (a missing `"Next"` raises `KeyError`); a
false rule moves to the next; no match yields nothing. -/
def choiceLoop (fuel : Nat) (state_input : Json) :
    List Json → Except WkErr (Option Json)
  | [] => .ok none
  | c :: rest =>
      if choiceHasEnd c then .error .choiceEndError
      else
        match evaluate_choice_branch fuel c state_input with
        | .error e => .error e
        | .ok true =>
            (match c with
             | .obj ckvs =>
                 (match lookupField ckvs "Next" with
                  | some nx => .ok (some nx)
                  | none => .error .keyError)
             | _ => .error .typeError)
        | .ok false => choiceLoop fuel state_input rest

/-- Embedding of `WorkflowExecution.state_process_choice`
(`wkflws/workflow.py` lines 298-328) up to the transition: the result is
the value the driver passes to `set_current_state_name` and
`execute_state`.  `next_state_name` starts as the state's `Default` (or
`None`), the loop overwrites it with the first matching rule's `Next`, and
a falsy final value (`None`, or an empty string) raises
`WkflwExecutionException("States.NoChoiceMatched")`. -/
def state_process_choice (fuel : Nat) (state state_input : Json) :
    Except WkErr Json :=
  match state with
  | .obj skvs =>
      (match lookupField skvs "Choices" with
       | some (.arr cs) => do
           let found ← choiceLoop fuel state_input cs
           let nxt :=
             match found with
             | some nx => some nx
             | none => lookupField skvs "Default"
           match nxt with
           | some nx => if pyTruthy nx then .ok nx else .error .noChoiceMatched
           | none => .error .noChoiceMatched
       | some _ => .error .typeError
       | none => .error .keyError)
  | _ => .error .typeError

/-! ### The intrinsic-function scanner
(`wkflws/intrinsic_funcs/scanner.py`).  The Python scanner drives a
`StringIO` cursor; here the source is a fixed character list and every
operation threads the cursor position.  `peek`, `advance` and `substr`
mirror the Python methods: `advance` at the end of the source reads the
empty string and leaves the cursor in place, modelled by `none`. -/

/-- Token kinds (`tokentype.py`). -/
inductive TokenType where
  | LEFT_PAREN | RIGHT_PAREN | COMMA | DOT | PLUS | MINUS | SLASH | STAR
  | IDENTIFIER | STRING | NUMBER | JSONPATH | EOF
deriving Repr, DecidableEq

/-- A token's `literal` field (`None`, a decoded string, or a `Decimal`). -/
inductive TokLit where
  | none
  | str (s : String)
  | num (q : Rat)
deriving Repr

/-- A scanner token (`token.py`). -/
structure Token where
  type : TokenType
  lexeme : String
  literal : TokLit
  offset_start : Nat
  offset_end : Nat
deriving Repr

/-- `Scanner.peek(count=k)`: the `k`-th character ahead, or the empty read
(`none`) past the end. -/
def peekCh (src : List Char) (pos k : Nat) : Option Char :=
  src.get? (pos + k - 1)

/-- `Scanner.advance()`: the character read and the new cursor (unchanged
at the end of the source). -/
def advanceCh (src : List Char) (pos : Nat) : Option Char × Nat :=
  match src.get? pos with
  | some c => (some c, pos + 1)
  | none => (none, pos)

/-- `Scanner.at_end`. -/
def atEnd (src : List Char) (pos : Nat) : Bool :=
  (peekCh src pos 1).isNone

/-- `Scanner.substr(start, length)`. -/
def substr (src : List Char) (start len : Nat) : String :=
  String.mk ((src.drop start).take len)

/-- `Scanner.is_digit`: ASCII `0-9`. -/
def pyIsDigit (c : Char) : Bool := 48 ≤ c.toNat && c.toNat ≤ 57

/-- `Scanner.is_alpha`: ASCII letters and underscore. -/
def pyIsAlpha (c : Char) : Bool :=
  (97 ≤ c.toNat && c.toNat ≤ 122) || (65 ≤ c.toNat && c.toNat ≤ 90) ||
    c.toNat = 95

/-- `Scanner.is_alphanumeric`. -/
def pyIsAlphanumeric (c : Char) : Bool := pyIsAlpha c || pyIsDigit c

/-- `is_alpha(self.peek())` where the peek may be the empty read (`ord` of
a non-character returns false through the `TypeError` handler). -/
def pyIsAlphaOpt : Option Char → Bool
  | some c => pyIsAlpha c
  | none => false

/-- `name-first` of the dot-selector ABNF in `process_jsonpath`: ASCII
letter, underscore, or any non-ASCII character. -/
def isNameFirst (c : Char) : Bool :=
  (65 ≤ c.toNat && c.toNat ≤ 90) || (97 ≤ c.toNat && c.toNat ≤ 122) ||
    c.toNat = 95 || 128 ≤ c.toNat

/-- `name-char`: `name-first` or a digit. -/
def isNameChar (c : Char) : Bool :=
  isNameFirst c || (48 ≤ c.toNat && c.toNat ≤ 57)

/-- `Scanner.add_token`: lexeme text re-read from the source between
`start` and the cursor. -/
def mkToken (src : List Char) (tt : TokenType) (lit : TokLit)
    (start pos : Nat) : Token :=
  ⟨tt, substr src start (pos - start), lit, start, pos⟩

/-- The `while self.peek() != "'"` loop of `process_string`; yields the
cursor at the closing apostrophe, or the unterminated-string error. -/
def stringLoop : Nat → List Char → Nat → Except WkErr Nat
  | 0, _, _ => .error .fuelExhausted
  | fuel + 1, src, pos =>
      if peekCh src pos 1 = some '\'' then .ok pos
      else
        let pos1 := (advanceCh src pos).2
        let pos2 :=
          if peekCh src pos1 1 = some '\\' && peekCh src pos1 2 = some '\'' then
            pos1 + 2
          else pos1
        if atEnd src pos2 then .error .scanError
        else stringLoop fuel src pos2

/-- Python `value.replace("\\'", "'")` (left-to-right, non-overlapping —
for this two-character pattern the same as the recursive scan). -/
def unescapeApostrophes : List Char → List Char
  | '\\' :: '\'' :: r => '\'' :: unescapeApostrophes r
  | c :: r => c :: unescapeApostrophes r
  | [] => []

/-- `Scanner.process_string`: the decoded literal is the text between the
apostrophes with `\'` unescaped; the lexeme keeps both apostrophes. -/
def process_string (src : List Char) (start pos : Nat) :
    Except WkErr (Token × Nat) := do
  let closePos ← stringLoop (src.length + 2) src pos
  let value := substr src (start + 1) ((closePos - 1) - start)
  let value := String.mk (unescapeApostrophes value.toList)
  let pos' := (advanceCh src closePos).2
  .ok (mkToken src .STRING (.str value) start pos', pos')

/-- The member-name tail loop of `process_jsonpath` (after `name_first`):
`ord(self.peek())` of the empty read raises `TypeError`; inside the loop
the empty read breaks. -/
def nameLoop : Nat → List Char → Nat → Char → Except WkErr Nat
  | 0, _, _, _ => .error .fuelExhausted
  | fuel + 1, src, pos, c =>
      if isNameChar c then
        let pos1 := pos + 1
        match peekCh src pos1 1 with
        | .none => .ok pos1
        | some c' => nameLoop fuel src pos1 c'
      else .ok pos

/-- The naive bracket-consumption loop of `process_jsonpath`
(`while self.advance() != "]"`). -/
def bracketLoop : Nat → List Char → Nat → Except WkErr Nat
  | 0, _, _ => .error .fuelExhausted
  | fuel + 1, src, pos =>
      match src.get? pos with
      | some ']' => .ok (pos + 1)
      | some _ =>
          if atEnd src (pos + 1) then .error .scanError
          else bracketLoop fuel src (pos + 1)
      | .none => .error .scanError

/-- The segment loop of `process_jsonpath`, transcribed case by case:

* `.` starts a dot / descendant / dot-wild selector; the member name is
  validated against the ABNF — `ord` of the empty read (source ending at
  `"$."` or right after a member name) raises `TypeError`;
* `[` is a wildcard `[*]` (exactly) or naively consumed to `]`;
* a blank `advance()`s once more — which consumes the character *after*
  the blank, so `"$.price * 0.1"` would lose its `*` to this case even if
  it reached the scanner;
* any other character is unread (`seek(current - 1)`) and ends the token;
* the empty read ends the token without seeking. -/
def jsonpathLoop : Nat → List Char → Nat → Except WkErr Nat
  | 0, _, _ => .error .fuelExhausted
  | fuel + 1, src, pos =>
      let (c?, pos1) := advanceCh src pos
      match c? with
      | some '.' =>
          (match peekCh src pos1 1 with
           | some '*' => jsonpathLoop fuel src (pos1 + 1)
           | some '.' =>
               let pos2 := pos1 + 1
               if !pyIsAlphaOpt (peekCh src pos2 1) then
                 jsonpathLoop fuel src pos2
               else
                 (match advanceCh src pos2 with
                  | (some nf, pos3) =>
                      if !isNameFirst nf then .error .scanError
                      else
                        match peekCh src pos3 1 with
                        | .none => .error .typeError
                        | some c0 => do
                            let pos4 ← nameLoop (src.length + 2) src pos3 c0
                            jsonpathLoop fuel src pos4
                  | (.none, _) => .error .typeError)
           | _ =>
               (match advanceCh src pos1 with
                | (some nf, pos3) =>
                    if !isNameFirst nf then .error .scanError
                    else
                      match peekCh src pos3 1 with
                      | .none => .error .typeError
                      | some c0 => do
                          let pos4 ← nameLoop (src.length + 2) src pos3 c0
                          jsonpathLoop fuel src pos4
                | (.none, _) => .error .typeError))
      | some '[' =>
          (match peekCh src pos1 1 with
           | some '*' =>
               let pos2 := pos1 + 1
               (match advanceCh src pos2 with
                | (some ']', pos3) => jsonpathLoop fuel src pos3
                | _ => .error .scanError)
           | _ => do
               let pos2 ← bracketLoop (src.length + 2) src pos1
               jsonpathLoop fuel src pos2)
      | some ' ' => jsonpathLoop fuel src (advanceCh src pos1).2
      | some '\t' => jsonpathLoop fuel src (advanceCh src pos1).2
      | some '\n' => jsonpathLoop fuel src (advanceCh src pos1).2
      | some '\r' => jsonpathLoop fuel src (advanceCh src pos1).2
      | some _ => .ok (pos1 - 1)
      | .none => .ok pos1

/-- `Scanner.process_jsonpath`: consume an optional second `$`, run the
segment loop, and emit a `JSONPATH` token (its `literal` is `None`; the
`value` the source computes is discarded). -/
def process_jsonpath (src : List Char) (start pos : Nat) :
    Except WkErr (Token × Nat) := do
  let pos := if peekCh src pos 1 = some '$' then pos + 1 else pos
  let endPos ← jsonpathLoop (src.length + 2) src pos
  .ok (mkToken src .JSONPATH .none start endPos, endPos)

/-- A maximal digit run starting at the cursor (the `while
self.is_digit(next_char)` loops of `process_number`). -/
def digitRun : Nat → List Char → Nat → Nat
  | 0, _, pos => pos
  | fuel + 1, src, pos =>
      match src.get? pos with
      | some c => if pyIsDigit c then digitRun fuel src (pos + 1) else pos
      | .none => pos

/-- `Scanner.process_number`: digits, then a fractional part only when a
dot is followed by a digit; the literal is `Decimal(value)`. -/
def process_number (src : List Char) (start pos : Nat) : Token × Nat :=
  let pos1 := digitRun (src.length + 1) src pos
  let pos2 :=
    if peekCh src pos1 1 = some '.' &&
        (match peekCh src pos1 2 with
         | some c => pyIsDigit c
         | .none => false) then
      digitRun (src.length + 1) src (pos1 + 1)
    else pos1
  let lex := substr src start (pos2 - start)
  (mkToken src .NUMBER (.num ((parseDecimal lex).getD 0)) start pos2, pos2)

/-- A maximal identifier run (`while self.is_alphanumeric(self.peek())`). -/
def identRun : Nat → List Char → Nat → Nat
  | 0, _, pos => pos
  | fuel + 1, src, pos =>
      match src.get? pos with
      | some c => if pyIsAlphanumeric c then identRun fuel src (pos + 1) else pos
      | .none => pos

/-- `Scanner.process_identifier` (the literal is `None`). -/
def process_identifier (src : List Char) (start pos : Nat) : Token × Nat :=
  let pos1 := identRun (src.length + 1) src pos
  (mkToken src .IDENTIFIER .none start pos1, pos1)

/-- `Scanner.scan_token`: one dispatch step; a blank emits no token, an
unrecognized character raises. -/
def scan_token (src : List Char) (pos : Nat) :
    Except WkErr (Option Token × Nat) :=
  let start := pos
  let (c?, pos1) := advanceCh src pos
  match c? with
  | some '(' => .ok (some (mkToken src .LEFT_PAREN .none start pos1), pos1)
  | some ')' => .ok (some (mkToken src .RIGHT_PAREN .none start pos1), pos1)
  | some ',' => .ok (some (mkToken src .COMMA .none start pos1), pos1)
  | some '.' => .ok (some (mkToken src .DOT .none start pos1), pos1)
  | some '-' => .ok (some (mkToken src .MINUS .none start pos1), pos1)
  | some '+' => .ok (some (mkToken src .PLUS .none start pos1), pos1)
  | some '/' => .ok (some (mkToken src .SLASH .none start pos1), pos1)
  | some '*' => .ok (some (mkToken src .STAR .none start pos1), pos1)
  | some '\'' => (process_string src start pos1).map (fun (t, p) => (some t, p))
  | some '$' => (process_jsonpath src start pos1).map (fun (t, p) => (some t, p))
  | some ' ' => .ok (.none, pos1)
  | some c =>
      if pyIsDigit c then
        let (t, p) := process_number src start pos1
        .ok (some t, p)
      else if pyIsAlpha c then
        let (t, p) := process_identifier src start pos1
        .ok (some t, p)
      else .error .scanError
  | .none => .error .scanError

/-- The `while not self.at_end` loop of `Scanner.scan`, ending with the
`EOF` token. -/
def scanLoop : Nat → List Char → Nat → List Token → Except WkErr (List Token)
  | 0, _, _, _ => .error .fuelExhausted
  | fuel + 1, src, pos, acc =>
      if atEnd src pos then .ok (acc ++ [⟨.EOF, "", .none, pos, pos⟩])
      else do
        let (t?, pos') ← scan_token src pos
        match t? with
        | some t => scanLoop fuel src pos' (acc ++ [t])
        | .none => scanLoop fuel src pos' acc

/-- `Scanner(source).scan()`. -/
def Scanner.scan (source : String) : Except WkErr (List Token) :=
  scanLoop (source.length + 2) source.toList 0 []

/-! ### The intrinsic-function parser
(`wkflws/intrinsic_funcs/parser.py` and the AST of `expr.py`/`stmt.py`).
Each parsing method threads the token cursor explicitly and returns the
parsed expression with the new cursor; `ParseError` raises are
`WkErr.parseError`.  `fuel` only serves termination (every recursion
either consumes a token or descends a finite grammar level). -/

/-- The expression AST (`expr.py`): `Literal`, `Variable`, `Unary`,
`Binary`, `Grouping`, `Call`. -/
inductive Expr where
  | literal (value : TokLit)
  | var (name : Token)
  | unary (operator : Token) (right : Expr)
  | binary (left : Expr) (operator : Token) (right : Expr)
  | grouping (expression : Expr)
  | call (callee : Expr) (paren : Token) (arguments : List Expr)
deriving Repr

/-- An expression statement (`stmt.py`). -/
structure Stmt where
  expression : Expr
deriving Repr

/-- `Parser.peek()` (out of range would be a Python `IndexError`; the EOF
sentinel keeps the cursor in range). -/
def peekT (toks : List Token) (cur : Nat) : Option Token := toks.get? cur

/-- `Parser.previous()`. -/
def previousT (toks : List Token) (cur : Nat) : Option Token :=
  toks.get? (cur - 1)

/-- `Parser.at_end`. -/
def atEndT (toks : List Token) (cur : Nat) : Bool :=
  match peekT toks cur with
  | some t => t.type = .EOF
  | none => true

/-- `Parser.check(token_type)`. -/
def checkT (toks : List Token) (cur : Nat) (tt : TokenType) : Bool :=
  if atEndT toks cur then false
  else
    match peekT toks cur with
    | some t => t.type = tt
    | none => false

/-- `Parser.match(token_types)`: whether one matched, and the new cursor
(a successful check is never at `EOF`, so `advance` moves). -/
def matchT (toks : List Token) (cur : Nat) (tts : List TokenType) :
    Bool × Nat :=
  if tts.any (checkT toks cur) then (true, cur + 1) else (false, cur)

/-- `Parser.consume(token_type, message)`. -/
def consumeT (toks : List Token) (cur : Nat) (tt : TokenType) :
    Except WkErr (Token × Nat) :=
  if checkT toks cur tt then
    match peekT toks cur with
    | some t => .ok (t, cur + 1)
    | none => .error .parseError
  else .error .parseError

/-- One task of the recursive-descent parser: a tag per `Parser` method
(the loop bodies carry their accumulated expression).  The mutually
recursive Python methods are embedded as a single step function over
these tags so the definition is structurally recursive on its fuel and
reduces definitionally; each tag's arm below transcribes the body of the
correspondingly named method. -/
inductive PTask where
  | expr
  | term
  | termLoop (e : Expr)
  | factor
  | factorLoop (e : Expr)
  | unary
  | call
  | callLoop (e : Expr)
  | finishCall (callee : Expr)
  | args (callee : Expr) (acc : List Expr)
  | primary

/-- The parser step function.  Arms, in order: `expression` (an alias for
`term`); `term` and its `(-|+)` loop; `factor` and its `(/|*)` loop;
`unary` (prefix `-`); `call` and its call/property loop — `.IDENT` joins
the identifier onto the callee `Variable`'s lexeme in place (the source's
"little bit of a hack"; a non-`Variable` callee would have no `.name`, an
`AttributeError`); `finish_call` and its argument loop — at most 254
arguments (the 255th raises `ParseError` before being parsed), and after
the loop the closing paren is consumed; `primary` — number and string
literals, groupings, identifiers and JSONPath tokens (both become
`Variable`s), anything else raises `ParseError ("Expected
expression.")`. -/
def parseRun : Nat → PTask → List Token → Nat → Except WkErr (Expr × Nat)
  | 0, _, _, _ => .error .fuelExhausted
  | fuel + 1, task, toks, cur =>
      match task with
      | .expr => parseRun fuel .term toks cur
      | .term => do
          let (e, c1) ← parseRun fuel .factor toks cur
          parseRun fuel (.termLoop e) toks c1
      | .termLoop e =>
          (match matchT toks cur [.MINUS, .PLUS] with
           | (true, c1) =>
               (match previousT toks c1 with
                | some op => do
                    let (right, c2) ← parseRun fuel .factor toks c1
                    parseRun fuel (.termLoop (.binary e op right)) toks c2
                | none => .error .indexError)
           | (false, _) => .ok (e, cur))
      | .factor => do
          let (e, c1) ← parseRun fuel .unary toks cur
          parseRun fuel (.factorLoop e) toks c1
      | .factorLoop e =>
          (match matchT toks cur [.SLASH, .STAR] with
           | (true, c1) =>
               (match previousT toks c1 with
                | some op => do
                    let (right, c2) ← parseRun fuel .unary toks c1
                    parseRun fuel (.factorLoop (.binary e op right)) toks c2
                | none => .error .indexError)
           | (false, _) => .ok (e, cur))
      | .unary =>
          (match matchT toks cur [.MINUS] with
           | (true, c1) =>
               (match previousT toks c1 with
                | some op => do
                    let (right, c2) ← parseRun fuel .unary toks c1
                    .ok (.unary op right, c2)
                | none => .error .indexError)
           | (false, _) => parseRun fuel .call toks cur)
      | .call => do
          let (e, c1) ← parseRun fuel .primary toks cur
          parseRun fuel (.callLoop e) toks c1
      | .callLoop e =>
          (match matchT toks cur [.LEFT_PAREN] with
           | (true, c1) => do
               let (e2, c2) ← parseRun fuel (.finishCall e) toks c1
               parseRun fuel (.callLoop e2) toks c2
           | (false, _) =>
               match matchT toks cur [.DOT] with
               | (true, c3) => do
                   let (nameTok, c4) ← consumeT toks c3 .IDENTIFIER
                   match e with
                   | .var tok =>
                       let e' :=
                         Expr.var
                           { tok with lexeme := tok.lexeme ++ "." ++ nameTok.lexeme }
                       (match matchT toks c4 [.LEFT_PAREN] with
                        | (true, c5) => do
                            let (e2, c6) ← parseRun fuel (.finishCall e') toks c5
                            parseRun fuel (.callLoop e2) toks c6
                        | (false, _) => parseRun fuel (.callLoop e') toks c4)
                   | _ => .error .attributeError
               | (false, _) => .ok (e, cur))
      | .finishCall callee =>
          if checkT toks cur .RIGHT_PAREN then do
            let (paren, c1) ← consumeT toks cur .RIGHT_PAREN
            .ok (.call callee paren [], c1)
          else parseRun fuel (.args callee []) toks cur
      | .args callee acc =>
          if 254 ≤ acc.length then .error .parseError
          else do
            let (e, c1) ← parseRun fuel .expr toks cur
            match matchT toks c1 [.COMMA] with
            | (true, c2) => parseRun fuel (.args callee (acc ++ [e])) toks c2
            | (false, _) => do
                let (paren, c2) ← consumeT toks c1 .RIGHT_PAREN
                .ok (.call callee paren (acc ++ [e]), c2)
      | .primary =>
          (match matchT toks cur [.NUMBER, .STRING] with
           | (true, c1) =>
               (match previousT toks c1 with
                | some t => .ok (.literal t.literal, c1)
                | none => .error .indexError)
           | (false, _) =>
               match matchT toks cur [.LEFT_PAREN] with
               | (true, c2) => do
                   let (e, c3) ← parseRun fuel .expr toks c2
                   let (_, c4) ← consumeT toks c3 .RIGHT_PAREN
                   .ok (.grouping e, c4)
               | (false, _) =>
                   match matchT toks cur [.IDENTIFIER] with
                   | (true, c5) =>
                       (match previousT toks c5 with
                        | some t => .ok (.var t, c5)
                        | none => .error .indexError)
                   | (false, _) =>
                       match matchT toks cur [.JSONPATH] with
                       | (true, c6) =>
                           (match previousT toks c6 with
                            | some t => .ok (.var t, c6)
                            | none => .error .indexError)
                       | (false, _) => .error .parseError)

/-- `Parser.expression`. -/
def expressionP (fuel : Nat) (toks : List Token) (cur : Nat) :
    Except WkErr (Expr × Nat) :=
  parseRun fuel .expr toks cur


/-- The `while not self.at_end` loop of `Parser.parse`. -/
def parseStatements : Nat → List Token → Nat → List Stmt →
    Except WkErr (List Stmt)
  | 0, _, _, _ => .error .fuelExhausted
  | fuel + 1, toks, cur, acc =>
      if atEndT toks cur then .ok acc
      else do
        let (e, cur') ← expressionP fuel toks cur
        parseStatements fuel toks cur' (acc ++ [⟨e⟩])

/-- `Parser(tokens).parse()`. -/
def Parser.parse (toks : List Token) : Except WkErr (List Stmt) :=
  parseStatements (50 * (toks.length + 2)) toks 0 []

/-! ### The intrinsic-function interpreter and built-ins
(`wkflws/intrinsic_funcs/interpreter.py`, `environment.py`, `funcs.py`,
`intrinsic_callable.py`).

Runtime values are deserialized JSON values or registered callables.  The
embedding conflates Python `int`, `float` and `Decimal` into `Rat`; the
`isinstance` distinctions of `visit_unary_expr` and `visit_binary_expr`
(under which, in Python, negating or mixing an `int` that came from JSON
input with a `Decimal` literal raises `RuntimeError`) are modelled as
accepting all numbers.  No claim evaluates an intrinsic arithmetic
operator at all, so no theorem below leans on that corner. -/

/-- A runtime value of the interpreter: a JSON value, or an
`IntrinsicCallable` from the registry (identified by its registered
name). -/
inductive IVal where
  | j (v : Json)
  | callable (name : String)
deriving Repr

/-- The built-in registry assembled by the `@register` decorators of
`funcs.py` at import time (`Environment.system_defaults`): each name's
declared arity, `some (some n)` for a fixed arity, `some none` for a
variadic (`arity=None`) callable, `none` for an unregistered name. -/
def builtinArity : String → Option (Option Nat)
  | "States.Format" => some none
  | "States.StringToJson" => some (some 1)
  | "States.JsonToString" => some (some 1)
  | "States.Array" => some none
  | "Array.Append" => some none
  | "Array.Join" => some (some 2)
  | "String.Trim" => some (some 1)
  | "Cast.ToNumber" => some (some 1)
  | "Format.Currency" => some (some 2)
  | _ => none

/-- How Python `str.format` renders a `{}` replacement field for the value
kinds that can arise (for a string the text itself, otherwise `str()`). -/
def fmtArg : Json → String
  | .str s => s
  | v => pyStr v

/-- Python `str.format` on a template with positional `{}` replacement
fields (and `{{`/`}}` brace escapes): each field takes the next argument.
Exhausted arguments are an `IndexError` and any other replacement-field
syntax is outside the modelled subset; both are `none` (the error paths
are never reached by a claim). -/
def pyFormatGo : List Char → List Json → Option String
  | [], _ => some ""
  | '{' :: '{' :: r, args => (pyFormatGo r args).map ("\x7b" ++ ·)
  | '{' :: '}' :: r, args =>
      (match args with
       | a :: rest => (pyFormatGo r rest).map (fmtArg a ++ ·)
       | [] => none)
  | '{' :: _, _ => none
  | '}' :: '}' :: r, args => (pyFormatGo r args).map ("\x7d" ++ ·)
  | '}' :: _, _ => none
  | c :: r, args => (pyFormatGo r args).map (c.toString ++ ·)

/-- Python `str.strip()` (both ends, any whitespace), for `String.Trim`. -/
def pyStrip (s : String) : String :=
  String.mk (((s.toList.dropWhile isSpaceCh).reverse.dropWhile isSpaceCh).reverse)

/-- An argument list as the Python built-ins receive it (a callable among
the arguments would reach code paths none of the built-ins support). -/
def asJson : IVal → Except WkErr Json
  | .j v => .ok v
  | .callable _ => .error .typeError

/-- The bodies of the registered built-ins (`funcs.py`), invoked by
`visit_call_expr` through `IntrinsicCallable.call`:

* `States.Format` — `template.format(*args)`; a non-string template has no
  `.format` (an `AttributeError`);
* `States.Array` — the argument tuple;
* `Array.Append` — tuple concatenation;
* `Array.Join` — `join_val.join(array)`, every element must be a string;
* `String.Trim` — `value.strip()`;
* `Cast.ToNumber` — `Decimal(value)`;
* `States.StringToJson`, `States.JsonToString` (JSON (de)serialization)
  and `Format.Currency` (decimal quantization) are beyond the modelled
  fragment — no claim mentions them and no theorem below evaluates them.
-/
def builtinCall : String → List IVal → Except WkErr IVal
  | "States.Format", args =>
      (match args with
       | .j (.str template) :: rest => do
           let vals ← rest.mapM asJson
           match pyFormatGo template.toList vals with
           | some s => .ok (.j (.str s))
           | none => .error .valueError
       | _ :: _ => .error .attributeError
       | [] => .error .typeError)
  | "States.Array", args => (args.mapM asJson).map (fun vs => .j (.arr vs))
  | "Array.Append", args =>
      (match args with
       | .j (.arr xs) :: rest => (rest.mapM asJson).map (fun vs => .j (.arr (xs ++ vs)))
       | _ => .error .typeError)
  | "Array.Join", args =>
      (match args with
       | [.j (.str sep), .j (.arr xs)] => do
           let strs ← xs.mapM (fun x =>
             match x with
             | .str s => Except.ok s
             | _ => Except.error WkErr.typeError)
           .ok (.j (.str (String.intercalate sep strs)))
       | _ => .error .typeError)
  | "String.Trim", args =>
      (match args with
       | [.j (.str s)] => .ok (.j (.str (pyStrip s)))
       | _ => .error .attributeError)
  | "Cast.ToNumber", args =>
      (match args with
       | [.j v] => (decimalCtor v).map (fun q => .j (.num q))
       | _ => .error .typeError)
  | "States.StringToJson", _ => .error .notModelled
  | "States.JsonToString", _ => .error .notModelled
  | "Format.Currency", _ => .error .notModelled
  | _, _ => .error .typeError

/-- `Environment.get` (`environment.py`): a lexeme starting with `$` is a
JSONPath lookup — `$$…` against `context_json` with one `$` stripped,
`$…` against `func_input_json`; the `except ValueError` re-raise is dead
code (`get_jsonpath_value` raises `JsonPathParserError`, which
propagates).  Any other lexeme is looked up among the registered
callables; an unknown name raises `RuntimeError` (`Undefined
identifier`). -/
def environmentGet (func_input_json context_json : Json) (name : Token) :
    Except WkErr IVal :=
  if pyStartsWith name.lexeme "$" then
    (if pyStartsWith name.lexeme "$$" then
       get_jsonpath_value context_json (dropStr name.lexeme 1)
     else
       get_jsonpath_value func_input_json name.lexeme).map .j
  else
    match builtinArity name.lexeme with
    | some _ => .ok (.callable name.lexeme)
    | none => .error .runtimeError

/-- The `Interpreter` visitor (`interpreter.py`), threading the two input
scopes.  `fuel` only serves termination of the tree walk.

* `Literal` → the stored value;
* `Grouping` → the inner expression;
* `Unary(-)` → numeric negation (`Decimal("-1.0") * value`); a non-number
  raises `RuntimeError`;
* `Binary` → `-`, `/`, `*` are applied directly (a non-numeric operand is
  Python `TypeError`; `Decimal` division by zero raises); `+` requires
  `isinstance(left, type(right))` and adds numbers, concatenates strings
  or lists, adds booleans as ints, and raises `RuntimeError` otherwise
  (`+` on two dicts or two `None` is a Python `TypeError`);
* `Variable` → `Environment.get`;
* `Call` → evaluate the callee, the arguments left to right, enforce a
  declared non-`None` arity exactly (`RuntimeError`), and invoke; a
  non-callable callee has no `.arity` (an `AttributeError`).

The visitor's mutual recursion (an expression, and the left-to-right
argument list of a call) is embedded as a single step function over
`Sum Expr (List Expr)` so the definition is structurally recursive on its
fuel and reduces definitionally; an `.inl` input always yields an `.inl`
result and an `.inr` an `.inr`, so the variant-mismatch arms below are
unreachable (any error value serves there). -/
def evalRun : Nat → Json → Json → Sum Expr (List Expr) →
    Except WkErr (Sum IVal (List IVal))
  | 0, _, _, _ => .error .fuelExhausted
  | _ + 1, _, _, .inl (.literal v) =>
      .ok (.inl (.j (match v with
                     | .none => .null
                     | .str s => .str s
                     | .num q => .num q)))
  | fuel + 1, fi, cx, .inl (.grouping e) => evalRun fuel fi cx (.inl e)
  | fuel + 1, fi, cx, .inl (.unary op right) => do
      let v ← evalRun fuel fi cx (.inl right)
      if op.type = .MINUS then
        match v with
        | .inl (.j (.num q)) => .ok (.inl (.j (.num (-1 * q))))
        | _ => .error .runtimeError
      else .ok (.inl (.j .null))
  | fuel + 1, fi, cx, .inl (.binary l op r) => do
      let lv ← evalRun fuel fi cx (.inl l)
      let rv ← evalRun fuel fi cx (.inl r)
      match op.type, lv, rv with
      | .MINUS, .inl (.j (.num a)), .inl (.j (.num b)) =>
          .ok (.inl (.j (.num (a - b))))
      | .MINUS, _, _ => .error .typeError
      | .SLASH, .inl (.j (.num a)), .inl (.j (.num b)) =>
          if b = 0 then .error .zeroDivision else .ok (.inl (.j (.num (a / b))))
      | .SLASH, _, _ => .error .typeError
      | .STAR, .inl (.j (.num a)), .inl (.j (.num b)) =>
          .ok (.inl (.j (.num (a * b))))
      | .STAR, _, _ => .error .typeError
      | .PLUS, .inl (.j (.num a)), .inl (.j (.num b)) =>
          .ok (.inl (.j (.num (a + b))))
      | .PLUS, .inl (.j (.str a)), .inl (.j (.str b)) =>
          .ok (.inl (.j (.str (a ++ b))))
      | .PLUS, .inl (.j (.arr a)), .inl (.j (.arr b)) =>
          .ok (.inl (.j (.arr (a ++ b))))
      | .PLUS, .inl (.j (.bool a)), .inl (.j (.bool b)) =>
          .ok (.inl (.j (.num ((if a then 1 else 0) + (if b then 1 else 0)))))
      | .PLUS, .inl (.j .null), .inl (.j .null) => .error .typeError
      | .PLUS, .inl (.j (.obj _)), .inl (.j (.obj _)) => .error .typeError
      | .PLUS, _, _ => .error .runtimeError
      | _, _, _ => .ok (.inl (.j .null))
  | _ + 1, fi, cx, .inl (.var name) => (environmentGet fi cx name).map .inl
  | fuel + 1, fi, cx, .inl (.call callee _paren args) => do
      let cv ← evalRun fuel fi cx (.inl callee)
      let avs ← evalRun fuel fi cx (.inr args)
      match cv, avs with
      | .inl (.callable nm), .inr argVals =>
          (match builtinArity nm with
           | some (some n) =>
               if argVals.length ≠ n then .error .runtimeError
               else (builtinCall nm argVals).map .inl
           | some none => (builtinCall nm argVals).map .inl
           | none => .error .typeError)
      | .inl (.j _), _ => .error .attributeError
      | _, _ => .error .fuelExhausted
  | _ + 1, _, _, .inr [] => .ok (.inr [])
  | fuel + 1, fi, cx, .inr (a :: as) => do
      let v ← evalRun fuel fi cx (.inl a)
      let vs ← evalRun fuel fi cx (.inr as)
      match v, vs with
      | .inl v', .inr vs' => .ok (.inr (v' :: vs'))
      | _, _ => .error .fuelExhausted

/-- `Interpreter.evaluate` on one expression (the `.inl` entry of
`evalRun`; the `.inr` result cannot occur). -/
def evalExpr (fuel : Nat) (fi cx : Json) (e : Expr) : Except WkErr IVal := do
  match ← evalRun fuel fi cx (.inl e) with
  | .inl v => .ok v
  | .inr _ => .error .fuelExhausted

/-! ### Payload templates and the execution driver's data shaping
(`wkflws/workflow.py`: `value_from_intrinsic_func`,
`evaluate_payload_template`, `get_processed_state_input`,
`process_result_path`, `get_processed_output`, `state_process_task`). -/

/-- `WorkflowExecution.value_from_intrinsic_func`: scan, parse, take the
first statement (`parse()[0]`, an `IndexError` on an empty program), and
hand the expression straight to `visit_call_expr` — which reads
`expr.callee`, an `AttributeError` unless the expression is a `Call`.
After evaluating, the debug line reads
`func_call.expression.callee.name.lexeme`, an `AttributeError` unless the
callee is a `Variable`.  The interpreter is built with
`func_input_json=state_input` and no context (`context_json` defaults to
`{}`).  The evaluated result is a JSON value for every modelled built-in
(a callable result cannot arise from them). -/
def value_from_intrinsic_func (value : String) (state_input : Json) :
    Except WkErr Json := do
  let tokens ← Scanner.scan value
  let stmts ← Parser.parse tokens
  match stmts with
  | [] => .error .indexError
  | st :: _ =>
      match st.expression with
      | .call callee paren args => do
          let r ← evalExpr (50 * (value.length + 2)) state_input (.obj [])
            (.call callee paren args)
          match callee with
          | .var _ =>
              (match r with
               | .j v => .ok v
               | .callable _ => .error .typeError)
          | _ => .error .attributeError
      | _ => .error .attributeError

/-- Python `param.rstrip(".$")`: strip every trailing `.` or `$` (a
character-set strip, not a suffix strip — `"a$.$"` becomes `"a"`). -/
def rstripDotDollar (s : String) : String :=
  String.mk (s.toList.reverse.dropWhile (fun c => c = '.' || c = '$')).reverse

/-- `WorkflowExecution.evaluate_payload_template`: walk the template
object; a field whose name ends in `.$` must hold a string (the source
calls `.startswith` on it — an `AttributeError` otherwise) and is
transformed — `$$…` resolves the path with the first `$` stripped against
`current_state` (the source's legacy `$$` behavior), `$…` resolves
against the state input, anything else is an intrinsic-function source —
and the key is written with trailing `.`/`$` stripped.  Other fields are
copied, recursing into dict values.  A non-dict template has no
`.items()` (an `AttributeError`).  `fuel` only serves termination of the
recursion into nested dicts.  The `for param, value in
payload_template.items()` loop is embedded as direct recursion over the
field list with the output dict as accumulator, so the definition is
structurally recursive on its fuel and reduces definitionally. -/
def templateFieldsRun : Nat → List (String × Json) → List (String × Json) →
    Json → Json → Except WkErr (List (String × Json))
  | 0, _, _, _, _ => .error .fuelExhausted
  | _ + 1, [], out, _, _ => .ok out
  | fuel + 1, (param, value) :: rest, out, state_input, current_state =>
      if pyEndsWith param ".$" then
        match value with
        | .str vs =>
            if pyStartsWith vs "$" then
              if pyStartsWith vs "$$" then do
                let fv ← get_jsonpath_value current_state (dropStr vs 1)
                templateFieldsRun fuel rest
                  (setField out (rstripDotDollar param) fv) state_input
                  current_state
              else do
                let fv ← get_jsonpath_value state_input vs
                templateFieldsRun fuel rest
                  (setField out (rstripDotDollar param) fv) state_input
                  current_state
            else do
              let fv ← value_from_intrinsic_func vs state_input
              templateFieldsRun fuel rest
                (setField out (rstripDotDollar param) fv) state_input
                current_state
        | _ => .error .attributeError
      else
        match value with
        | .obj kvs2 => do
            let nv ← templateFieldsRun fuel kvs2 [] state_input current_state
            templateFieldsRun fuel rest (setField out param (.obj nv))
              state_input current_state
        | _ =>
            templateFieldsRun fuel rest (setField out param value) state_input
              current_state

/-- `WorkflowExecution.evaluate_payload_template` (the entry of
`templateFieldsRun`, starting from an empty output dict). -/
def evaluate_payload_template (fuel : Nat)
    (payload_template state_input current_state : Json) : Except WkErr Json :=
  match payload_template with
  | .obj kvs =>
      (templateFieldsRun fuel kvs [] state_input current_state).map .obj
  | _ => .error .attributeError

/-- `WorkflowExecution.get_processed_state_input`: `InputPath` is a `TODO`
(pass-through); when `Parameters` is present its payload template becomes
the effective input.  `state` is also the `current_state` the template's
`$$` lookups read. -/
def get_processed_state_input (fuel : Nat) (state original_state_input : Json) :
    Except WkErr Json :=
  match state with
  | .obj skvs =>
      (match lookupField skvs "Parameters" with
       | none => .ok original_state_input
       | some payload_template =>
           evaluate_payload_template fuel payload_template
             original_state_input state)
  | _ => .error .typeError

/-- `WorkflowExecution.process_result_path`: without a `ResultPath` the
output passes through; otherwise `str(ResultPath)` must not start with
`$$` and must start with `$` (both `WkflwExecutionException`s), and the
output is grafted into `input_ or {}` (Python truthiness: a `None` *or
empty* input is replaced by a fresh `{}`) via `set_jsonpath_value` with
`create_if_missing=True, use_copy=False`. -/
def process_result_path (current_state : Json) (input_ : Option Json)
    (output : Json) : Except WkErr Json :=
  match current_state with
  | .obj skvs =>
      (match lookupField skvs "ResultPath" with
       | none => .ok output
       | some rpj =>
           let result_path := pyStr rpj
           if pyStartsWith result_path "$$" then .error .executionError
           else if !pyStartsWith result_path "$" then .error .executionError
           else
             let base :=
               match input_ with
               | some d => if pyTruthy d then d else .obj []
               | none => .obj []
             (set_jsonpath_value base output result_path true false).map (·.1))
  | _ => .error .typeError

/-- `WorkflowExecution.get_processed_output`: a `None` input becomes `{}`;
a present `ResultSelector` is re-evaluated as a payload template against
`input_` when the output is a dict (and, the legacy escape hatch, applied
to the output as a raw JSONPath otherwise); then `process_result_path`;
then a present `OutputPath` is applied to the result. -/
def get_processed_output (fuel : Nat) (current_state : Json)
    (input_ : Option Json) (output : Json) : Except WkErr Json :=
  match current_state with
  | .obj skvs => do
      let inp := input_.getD (.obj [])
      let o1 ←
        (match lookupField skvs "ResultSelector" with
         | some rs =>
             (match output with
              | .obj _ => evaluate_payload_template fuel rs inp current_state
              | _ =>
                  (match rs with
                   | .str rss => get_jsonpath_value output rss
                   | _ => .error .typeError))
         | none => .ok output)
      let o2 ← process_result_path current_state (some inp) o1
      (match lookupField skvs "OutputPath" with
       | some (.str op) => get_jsonpath_value o2 op
       | some _ => .error .typeError
       | none => .ok o2)
  | _ => .error .typeError

/-- `WorkflowExecution.state_process_task`: the executor call and
`json.loads` sit outside the embedding — `execResult` is the outcome of
`await executor.execute(...)` (`.ok` a serialized string, `.error` a
raised exception) and `loads` models `json.loads` (`none` when the string
does not parse as JSON).  The whole body is under `try/except Exception`:
any executor error or parse failure is logged and replaced by `{}`; the
driver does not fail. -/
def state_process_task (loads : String → Option Json)
    (execResult : Except String String) : Json :=
  match execResult with
  | .error _ => .obj []
  | .ok s =>
      match loads s with
      | some v => v
      | none => .obj []

/-- The `Task` arm of `execute_state`: the deserialized task output flows
through `get_processed_output` against the state's raw input
(`input_=state_input, output=raw_output`). -/
def taskStateOutput (fuel : Nat) (current_state state_input : Json)
    (loads : String → Option Json) (execResult : Except String String) :
    Except WkErr Json :=
  get_processed_output fuel current_state (some state_input)
    (state_process_task loads execResult)

/-! ## Theorems settling the claims -/

/-- Claim C1, as stated, is false: the payload-template field value
`"$.price * 0.1"` begins with `$`, so `evaluate_payload_template` treats
it as a JSONPath against the state input; `jsonpath_ng` has no arithmetic,
so the evaluation raises a parse error instead of producing
`{"total": 10.0}`. -/
theorem C1_counterexample :
    evaluate_payload_template 100
      (.obj [("total.$", .str "$.price * 0.1")])
      (.obj [("price", .num 100)]) (.obj [])
      = .error .jsonPathParseError ∧
    evaluate_payload_template 100
      (.obj [("total.$", .str "$.price * 0.1")])
      (.obj [("price", .num 100)]) (.obj [])
      ≠ .ok (.obj [("total", .num 10)]) := by
  refine ⟨rfl, fun h => ?_⟩
  rw [show evaluate_payload_template 100
        (.obj [("total.$", .str "$.price * 0.1")])
        (.obj [("price", .num 100)]) (.obj [])
        = (.error .jsonPathParseError : Except WkErr Json) from rfl] at h
  exact Except.noConfusion h

/-- Claim C1 as amended: evaluating `Parameters {"total.$": "$.price *
0.1"}` against `{"price": 100}` does *not* succeed — the value begins
with a single `$`, so it is resolved as a JSONPath against the state
input, and `"$.price * 0.1"` is not a JSONPath expression, so the
evaluation fails with `jsonpath_ng`'s parse error. -/
theorem C1_arith_template_value_is_path_and_fails :
    pyStartsWith "$.price * 0.1" "$" = true ∧
    pyStartsWith "$.price * 0.1" "$$" = false ∧
    parseJsonPath "$.price * 0.1" = none ∧
    evaluate_payload_template 100
      (.obj [("total.$", .str "$.price * 0.1")])
      (.obj [("price", .num 100)]) (.obj [])
      = .error .jsonPathParseError :=
  ⟨rfl, rfl, rfl, rfl⟩

/-- Claim C2: the payload template `{"msg.$": "States.Format('Hello, {}',
$.name)"}` evaluated against `{"name": "world"}` yields exactly `{"msg":
"Hello, world"}` — the value does not begin with `$`, so it is scanned,
parsed and interpreted as an intrinsic call; the JSONPath argument
`$.name` resolves to `"world"` and is substituted into the `{}`
placeholder; the key loses its `.$` suffix. -/
theorem C2_format_intrinsic_payload_template :
    value_from_intrinsic_func "States.Format('Hello, \x7b\x7d', $.name)"
      (.obj [("name", .str "world")]) = .ok (.str "Hello, world") ∧
    evaluate_payload_template 100
      (.obj [("msg.$", .str "States.Format('Hello, \x7b\x7d', $.name)")])
      (.obj [("name", .str "world")]) (.obj [])
      = .ok (.obj [("msg", .str "Hello, world")]) :=
  ⟨rfl, rfl⟩

/-- Claim C4: when a JSONPath expression of the modelled fragment resolves
to nothing, `get_jsonpath_value` does not report any error outcome — it
returns the ordinary empty list (there is no `PathNotFound`); in
particular `get({}, "$.n")` is `.ok []`.  (The dead `except ValueError`
handlers in `evaluate_choice_branch` and `Environment._get_jsonpath_value`
are the would-be consumers of the missing error.) -/
theorem C4_missing_path_returns_empty_list :
    (∀ (data : Json) (expr : String) (p : JPath),
        parseJsonPath expr = some p → isSliceSel p.lastSel = false →
        p.find data = [] →
        get_jsonpath_value data expr = .ok (.arr [])) ∧
    get_jsonpath_value (.obj []) "$.n" = .ok (.arr []) := by
  refine ⟨fun data expr p hp _ hfind => ?_, rfl⟩
  simp only [get_jsonpath_value, hp, hfind]
  rfl

/-- Claim C5, as stated, is false; what the code does: with input `{}`
the Choice's `Variable` path `$.n` resolves to nothing, so
`get_jsonpath_value` returns `[]` (no `ValueError` fires), therefore an
`IsPresent` rule answers `true` (not `false`), and the
`NumericGreaterThanEquals` rule evaluates `Decimal(str([]))`, raising
`decimal.InvalidOperation` — not a `WkflwExecutionException`.  (`IsNull`
likewise quietly answers `false` instead of raising.) -/
theorem C5_missing_variable_is_not_handled :
    evaluate_choice_branch 10
      (.obj [("Variable", .str "$.n"), ("IsPresent", .bool true)])
      (.obj []) = .ok true ∧
    evaluate_choice_branch 10
      (.obj [("Variable", .str "$.n"), ("IsNull", .bool true)])
      (.obj []) = .ok false ∧
    state_process_choice 10
      (.obj [("Choices", .arr [.obj [("Variable", .str "$.n"),
               ("NumericGreaterThanEquals", .num 10),
               ("Next", .str "Big")]]),
             ("Default", .str "Small")])
      (.obj []) = .error .invalidOperation ∧
    WkErr.invalidOperation ≠ WkErr.executionError :=
  ⟨rfl, rfl, rfl, by decide⟩

/-- Claim C7, as stated, is false; what the code does: the
`NumericGreaterThan` arm of `evaluate_choice_branch` compares with `>=`
(for every resolved number `v` and numeric operand `q` it answers
`q ≤ v`), so a value exactly equal to the operand *does* match: with
`{"n": 10}` against operand `10` the rule answers `true`. -/
theorem C7_numeric_greater_than_uses_ge :
    (∀ (v q : Rat),
        evaluate_choice_branch 1
          (.obj [("Variable", .str "$.n"), ("NumericGreaterThan", .num q)])
          (.obj [("n", .num v)]) = .ok (decide (q ≤ v))) ∧
    evaluate_choice_branch 1
      (.obj [("Variable", .str "$.n"), ("NumericGreaterThan", .num 10)])
      (.obj [("n", .num 10)]) = .ok true ∧
    evaluate_choice_branch 1
      (.obj [("Variable", .str "$.n"), ("NumericGreaterThan", .num 10)])
      (.obj [("n", .num 9)]) = .ok false :=
  ⟨fun _ _ => rfl, rfl, rfl⟩

/-- Claim C3, as stated, is false: a path whose final selector is a slice
can return a non-list — when the slice yields exactly one element that is
itself an object (or array), `get_jsonpath_value` returns that element
directly (the `isinstance(result[0].value, (dict, list))` branch runs
before the slice check). -/
theorem C3_counterexample :
    get_jsonpath_value (.obj [("a", .arr [.obj [("x", .num 1)]])]) "$.a[-1:]"
      = .ok (.obj [("x", .num 1)]) ∧
    Json.isArr (.obj [("x", .num 1)]) = false :=
  ⟨rfl, rfl⟩

/-- Claim C3 as amended: on a path of the modelled fragment whose final
selector is a slice, `get_jsonpath_value` returns a list when the slice
yields nothing (the empty list), exactly one non-container element (the
one-element list), or two or more elements (the result list) — but a
single element that is itself an object or array is returned directly,
not wrapped.  The claim's concrete examples hold:
`get({"a": [1,2,3,4,5]}, "$.a[-2:]") = [4, 5]` and
`get({"s1": ["p"]}, "$.s1[-6:]") = ["p"]`. -/
theorem C3_slice_returns_list_unless_single_container :
    (∀ (data : Json) (expr : String) (p : JPath),
        parseJsonPath expr = some p → isSliceSel p.lastSel = true →
        p.find data = [] →
        get_jsonpath_value data expr = .ok (.arr [])) ∧
    (∀ (data : Json) (expr : String) (p : JPath) (v : Json),
        parseJsonPath expr = some p → isSliceSel p.lastSel = true →
        p.find data = [v] → v.isContainer = false →
        get_jsonpath_value data expr = .ok (.arr [v])) ∧
    (∀ (data : Json) (expr : String) (p : JPath) (v : Json),
        parseJsonPath expr = some p →
        p.find data = [v] → v.isContainer = true →
        get_jsonpath_value data expr = .ok v) ∧
    (∀ (data : Json) (expr : String) (p : JPath) (vs : List Json),
        parseJsonPath expr = some p → p.find data = vs → 1 < vs.length →
        get_jsonpath_value data expr = .ok (.arr vs)) ∧
    get_jsonpath_value
      (.obj [("a", .arr [.num 1, .num 2, .num 3, .num 4, .num 5])]) "$.a[-2:]"
      = .ok (.arr [.num 4, .num 5]) ∧
    get_jsonpath_value (.obj [("s1", .arr [.str "p"])]) "$.s1[-6:]"
      = .ok (.arr [.str "p"]) := by
  refine ⟨?_, ?_, ?_, ?_, rfl, rfl⟩
  · intro data expr p hp _ hfind
    simp only [get_jsonpath_value, hp, hfind]
    rfl
  · intro data expr p v hp hslice hfind hcont
    simp only [get_jsonpath_value, hp, hfind]
    simp [hcont, hslice]
  · intro data expr p v hp hfind hcont
    simp only [get_jsonpath_value, hp, hfind]
    simp [hcont]
  · intro data expr p vs hp hfind hlen
    simp only [get_jsonpath_value, hp, hfind]
    simp [hlen]

/-- Claim C6: `state_process_choice` evaluates the rules in order — a
false rule passes control to the rest of the list, the first rule whose
predicate is true supplies its `Next`, and when no rule matched the
state's `Default` (when truthy) is used; concretely, the Choice of the
claim transitions to `Big` on `{"n": 12}` and to `Small` on `{"n": 3}`. -/
theorem C6_choice_first_match_wins_else_default :
    (∀ (fuel : Nat) (state_input : Json) (ckvs : List (String × Json))
        (rest : List Json) (nx : Json),
        hasField ckvs "End" = false →
        evaluate_choice_branch fuel (.obj ckvs) state_input = .ok true →
        lookupField ckvs "Next" = some nx →
        choiceLoop fuel state_input (.obj ckvs :: rest) = .ok (some nx)) ∧
    (∀ (fuel : Nat) (state_input c : Json) (rest : List Json),
        choiceHasEnd c = false →
        evaluate_choice_branch fuel c state_input = .ok false →
        choiceLoop fuel state_input (c :: rest)
          = choiceLoop fuel state_input rest) ∧
    (∀ (fuel : Nat) (state_input : Json) (skvs : List (String × Json))
        (cs : List Json) (d : Json),
        lookupField skvs "Choices" = some (.arr cs) →
        choiceLoop fuel state_input cs = .ok none →
        lookupField skvs "Default" = some d → pyTruthy d = true →
        state_process_choice fuel (.obj skvs) state_input = .ok d) ∧
    state_process_choice 10
      (.obj [("Choices", .arr [.obj [("Variable", .str "$.n"),
               ("NumericGreaterThanEquals", .num 10),
               ("Next", .str "Big")]]),
             ("Default", .str "Small")])
      (.obj [("n", .num 12)]) = .ok (.str "Big") ∧
    state_process_choice 10
      (.obj [("Choices", .arr [.obj [("Variable", .str "$.n"),
               ("NumericGreaterThanEquals", .num 10),
               ("Next", .str "Big")]]),
             ("Default", .str "Small")])
      (.obj [("n", .num 3)]) = .ok (.str "Small") := by
  refine ⟨?_, ?_, ?_, rfl, rfl⟩
  · intro fuel state_input ckvs rest nx hEnd hEval hNext
    simp [choiceLoop, choiceHasEnd, hEnd, hEval, hNext]
  · intro fuel state_input c rest hEnd hEval
    simp [choiceLoop, hEnd, hEval]
  · intro fuel state_input skvs cs d hC hLoop hD hT
    simp [state_process_choice, hC, hLoop, hD, hT, Bind.bind, Except.bind]

/-- Helper for C8: a string beginning with `$$` begins with `$`. -/
theorem pyStartsWith_dollar_of_double (s : String)
    (h : pyStartsWith s "$$" = true) : pyStartsWith s "$" = true := by
  unfold pyStartsWith at h ⊢
  cases hl : s.toList with
  | nil => rw [hl] at h; simp [List.isPrefixOf] at h
  | cons b bs =>
      rw [hl] at h
      show List.isPrefixOf ['$'] (b :: bs) = true
      cases hbs : bs with
      | nil => rw [hbs] at h; simp [List.isPrefixOf] at h
      | cons c cs =>
          rw [hbs] at h
          simp [List.isPrefixOf] at h ⊢
          exact h.1

/-- Claim C8: a `ResultPath` beginning with `$$`, or not beginning with
`$`, makes output shaping fail with `WkflwExecutionException`; a valid
reference path grafts the state's result into the state's input —
concretely, `ResultPath "$.r"` with input `{"x": 1}` and result
`{"y": 2}` hands `{"x": 1, "r": {"y": 2}}` on, and `ResultPath "$.r.s"`
creates the missing intermediate object. -/
theorem C8_result_path_validates_then_grafts :
    (∀ (skvs : List (String × Json)) (input_ : Option Json)
        (output : Json) (rp : String),
        lookupField skvs "ResultPath" = some (.str rp) →
        pyStartsWith rp "$$" = true →
        process_result_path (.obj skvs) input_ output
          = .error .executionError) ∧
    (∀ (skvs : List (String × Json)) (input_ : Option Json)
        (output : Json) (rp : String),
        lookupField skvs "ResultPath" = some (.str rp) →
        pyStartsWith rp "$" = false →
        process_result_path (.obj skvs) input_ output
          = .error .executionError) ∧
    process_result_path (.obj [("ResultPath", .str "$.r")])
      (some (.obj [("x", .num 1)])) (.obj [("y", .num 2)])
      = .ok (.obj [("x", .num 1), ("r", .obj [("y", .num 2)])]) ∧
    process_result_path (.obj [("ResultPath", .str "$.r.s")])
      (some (.obj [("x", .num 1)])) (.obj [("y", .num 2)])
      = .ok (.obj [("x", .num 1),
                   ("r", .obj [("s", .obj [("y", .num 2)])])]) := by
  refine ⟨?_, ?_, rfl, rfl⟩
  · intro skvs input_ output rp hrp hdd
    simp [process_result_path, hrp, pyStr, hdd]
  · intro skvs input_ output rp hrp hns
    have hdd : pyStartsWith rp "$$" = false := by
      cases h : pyStartsWith rp "$$" with
      | false => rfl
      | true => rw [pyStartsWith_dollar_of_double rp h] at hns; cases hns
    simp [process_result_path, hrp, pyStr, hdd, hns]

/-- Claim C9: an executor error, or executor output that does not parse
as JSON, never fails the Task state — `state_process_task` answers the
empty object, and the Task arm of `execute_state` then shapes that empty
object exactly as it would shape any raw output; concretely, with
`ResultPath "$.r"` and input `{"x": 1}` an erroring executor hands
`{"x": 1, "r": {}}` to the next state. -/
theorem C9_task_errors_continue_with_empty_object :
    (∀ (loads : String → Option Json) (e : String),
        state_process_task loads (.error e) = .obj []) ∧
    (∀ (loads : String → Option Json) (s : String), loads s = none →
        state_process_task loads (.ok s) = .obj []) ∧
    (∀ (fuel : Nat) (current_state state_input : Json)
        (loads : String → Option Json) (res : Except String String),
        state_process_task loads res = .obj [] →
        taskStateOutput fuel current_state state_input loads res
          = get_processed_output fuel current_state (some state_input)
              (.obj [])) ∧
    taskStateOutput 100 (.obj [("ResultPath", .str "$.r")])
      (.obj [("x", .num 1)]) (fun _ => none) (.error "boom")
      = .ok (.obj [("x", .num 1), ("r", .obj [])]) := by
  refine ⟨fun _ _ => rfl, ?_, ?_, rfl⟩
  · intro loads s h
    simp [state_process_task, h]
  · intro fuel current_state state_input loads res h
    unfold taskStateOutput
    rw [h]

/-- Helper for C10: grafting into a non-empty dict leaves it truthy. -/
theorem updateOrCreate_truthy (sels : List JSel) (k0 : String × Json)
    (kvs : List (String × Json)) (v : Json) :
    pyTruthy (updateOrCreate sels (.obj (k0 :: kvs)) v) = true := by
  match sels with
  | [] => rfl
  | [.field f] =>
      show pyTruthy (.obj (setField (k0 :: kvs) f v)) = true
      rcases k0 with ⟨k1, v1⟩
      by_cases h : k1 = f
      · simp [setField, h, pyTruthy]
      · simp [setField, h, pyTruthy]
  | .field f :: s2 :: rest =>
      show pyTruthy (.obj (setField (k0 :: kvs) f
        (updateOrCreate (s2 :: rest)
          ((lookupField (k0 :: kvs) f).getD (.obj [])) v))) = true
      rcases k0 with ⟨k1, v1⟩
      by_cases h : k1 = f
      · simp [setField, h, pyTruthy]
      · simp [setField, h, pyTruthy]
  | .idx i :: rest => rfl
  | .slice a b :: rest => rfl

/-- Claim C10: `set_jsonpath_value` with `use_copy=True` leaves a
non-empty data object unchanged (the second component: the original after
the call) and returns the modified copy — but with the empty object it
mutates and returns the original, because the copy target is selected by
Python truthiness (`data_copy if data_copy else data`) and the empty-dict
copy is falsy; concretely, setting `{"y": 2}` at `$.r` in `{}` returns
the very object that was passed in, now `{"r": {"y": 2}}`. -/
theorem C10_set_use_copy_mutates_original_when_empty :
    (∀ (k0 : String × Json) (kvs : List (String × Json)) (new_data : Json)
        (expr : String) (p : JPath), parseJsonPath expr = some p →
        set_jsonpath_value (.obj (k0 :: kvs)) new_data expr true true
          = .ok (updateOrCreate p.sels (.obj (k0 :: kvs)) new_data,
                 .obj (k0 :: kvs))) ∧
    (∀ (new_data : Json) (expr : String) (p : JPath),
        parseJsonPath expr = some p →
        set_jsonpath_value (.obj []) new_data expr true true
          = .ok (updateOrCreate p.sels (.obj []) new_data,
                 updateOrCreate p.sels (.obj []) new_data)) ∧
    set_jsonpath_value (.obj []) (.obj [("y", .num 2)]) "$.r" true true
      = .ok (.obj [("r", .obj [("y", .num 2)])],
             .obj [("r", .obj [("y", .num 2)])]) ∧
    Json.obj [("r", .obj [("y", .num 2)])] ≠ Json.obj [] := by
  refine ⟨?_, ?_, rfl, by simp⟩
  · intro k0 kvs new_data expr p hp
    have ht := updateOrCreate_truthy p.sels k0 kvs new_data
    have hd : pyTruthy (.obj (k0 :: kvs)) = true := rfl
    simp [set_jsonpath_value, hp, hd, ht]
  · intro new_data expr p hp
    have hd : pyTruthy (.obj ([] : List (String × Json))) = false := rfl
    simp [set_jsonpath_value, hp, hd]

end Wkflws
